import Mathlib

/-!
# Verification of the observe-cost-attribution pipeline

Shallow embedding of `src/dags/snowflake_cost_attribution.py` and
`src/include/core/metrics.py`.

Modelling conventions:
* Timestamps (pendulum/Snowflake datetimes) are UTC microseconds since the Unix
  epoch, carried as `Int`.  `pendulum.DateTime.subtract(hours=8)` is exact
  subtraction of `8 * 3600 * 10^6` microseconds on that representation, and
  `strftime "%Y-%m-%dT%H:%M:%S.%fZ"` is the function `strftimeRFC3339` below
  (civil-calendar decomposition with zero-padded fields, microsecond precision).
* Numeric metric values (credits, row counts, elapsed time, bytes) are carried
  as `Int`: the code only copies them or substitutes `0` for SQL NULL, so the
  concrete numeric representation is irrelevant; NULL is `Option.none`.
* A Python `dict` (as built by the comprehension in `get_query_ids` and read
  with `.get`) is an association list with CPython semantics: inserting an
  existing key overwrites the value in place, a fresh key is appended, and
  `.keys()` is the list of keys in that order.
* Raised exceptions are `Except.error` values; the list of publish calls a
  task performs is returned explicitly (an exception raised while building the
  metric lists happens before any `post_metrics` call in the source, so an
  erroring task has an empty publish list).
-/

/-- A record of `resp.json().get("externalQueries")`: correlation metadata for
one external query, keyed by `queryId`.  The JSON key `namespace` is the field
`nspace` here (`namespace` is a Lean keyword); `workspaceId` is read with
`.get` in the source, hence optional. -/
structure QueryRecord where
  queryId : String
  assetId : String
  deploymentId : String
  workspaceId : Option String
  runId : String
  dagId : String
  taskId : String
  nspace : String
deriving DecidableEq

/-- One row of the `cost_attribution` SQL result:
`(query_id, end_time, credits_attributed_compute)`. -/
structure CostRow where
  queryId : String
  endTime : Int
  credit : Int
deriving DecidableEq

/-- One row of the `rows_processed_attribution` SQL result (9-tuple); the seven
numeric fields are nullable. -/
structure UsageRow where
  queryId : String
  rows_produced : Option Int
  rows_inserted : Option Int
  rows_updated : Option Int
  rows_deleted : Option Int
  rows_unloaded : Option Int
  total_elapsed_time : Option Int
  bytes_scanned : Option Int
  endTime : Int
deriving DecidableEq

/-- One metric dict appended to a batch by `post_cost_attribution` /
`post_query_rows_processed`.  The JSON key `namespace` is `nspace`. -/
structure MetricRecord where
  value : Int
  assetId : String
  deploymentId : String
  workspaceId : Option String
  runId : String
  dagId : String
  taskId : String
  nspace : String
  timestamp : String
deriving DecidableEq

/-- One `post_metrics(token, category, type, data)` call: the body
`{"category": category, "type": type, "metrics": data}`. -/
structure Batch where
  category : String
  type : String
  metrics : List MetricRecord
deriving DecidableEq

/-- An HTTP response as observed by the code: `status_code`, `reason`,
`text`. -/
structure HttpResponse where
  status_code : Nat
  reason : String
  text : String
deriving DecidableEq

/-- Python exceptions raised by the embedded code. -/
inductive PyExc where
  | typeError : String → PyExc
  | nameError : String → PyExc
  | exc : String → PyExc
deriving DecidableEq

/-- The `TypeError` CPython raises for `None["assetId"]`, i.e. when
`query_run_mapping.get(query_id)` returned `None`. -/
def subscriptError : PyExc :=
  PyExc.typeError "NoneType object is not subscriptable"

/-! ## strftime "%Y-%m-%dT%H:%M:%S.%fZ" on UTC microseconds -/

/-- Microseconds per second. -/
def usPerSecond : Int := 1000000

/-- Microseconds in `h` hours (used for `subtract(hours=8)`). -/
def hoursToMicros (h : Int) : Int := h * 3600 * usPerSecond

/-- Gregorian date `(year, month, day)` of a day count relative to 1970-01-01
(standard civil-from-days algorithm, floor division so negative day counts are
also correct). -/
def civilFromDays (z : Int) : Int × Int × Int :=
  let zs := z + 719468
  let era := zs.ediv 146097
  let doe := zs.emod 146097
  let yoe := (doe - doe.ediv 1460 + doe.ediv 36524 - doe.ediv 146096).ediv 365
  let y := yoe + era * 400
  let doy := doe - (365 * yoe + yoe.ediv 4 - yoe.ediv 100)
  let mp := (5 * doy + 2).ediv 153
  let d := doy - (153 * mp + 2).ediv 5 + 1
  let m := if mp < 10 then mp + 3 else mp - 9
  (if m ≤ 2 then y + 1 else y, m, d)

/-- Decimal rendering of a nonnegative `Int`, zero-padded to `width`. -/
def padNum (width : Nat) (n : Int) : String :=
  let s := toString n.toNat
  if s.length < width then
    String.mk (List.replicate (width - s.length) '0') ++ s
  else s

/-- `dt.strftime("%Y-%m-%dT%H:%M:%S.%fZ")` for a UTC instant given as
microseconds since the epoch. -/
def strftimeRFC3339 (t : Int) : String :=
  let micro := t.emod usPerSecond
  let totalSeconds := t.ediv usPerSecond
  let dayNumber := totalSeconds.ediv 86400
  let secondOfDay := totalSeconds.emod 86400
  let ymd := civilFromDays dayNumber
  let hh := secondOfDay.ediv 3600
  let mm := (secondOfDay.emod 3600).ediv 60
  let ss := secondOfDay.emod 60
  padNum 4 ymd.1 ++ "-" ++ padNum 2 ymd.2.1 ++ "-" ++ padNum 2 ymd.2.2 ++ "T" ++
    padNum 2 hh ++ ":" ++ padNum 2 mm ++ ":" ++ padNum 2 ss ++ "." ++
    padNum 6 micro ++ "Z"

/-! ## Python dict model -/

/-- The mapping `queryId → QueryRecord` as an association list in CPython key
order. -/
def QueryMap := List (String × QueryRecord)

/-- CPython dict assignment `m[k] = v`: overwrite in place if the key exists
(position kept), otherwise append. -/
def dictInsert : List (String × QueryRecord) → String → QueryRecord →
    List (String × QueryRecord)
  | [], k, v => [(k, v)]
  | p :: m, k, v => if p.1 = k then (k, v) :: m else p :: dictInsert m k v

/-- CPython `m.get(k)`: the value at the first (hence, under the dict
invariant, only) occurrence of `k`, or `None`. -/
def dictGet : List (String × QueryRecord) → String → Option QueryRecord
  | [], _ => none
  | p :: m, k => if p.1 = k then some p.2 else dictGet m k

/-- `{query["queryId"]: query for query in queries}`. -/
def buildQueryMap (queries : List QueryRecord) : List (String × QueryRecord) :=
  queries.foldl (fun m q => dictInsert m q.queryId q) []

/-- `list(query_run_mapping.keys())`, the `query_ids` entry of the
`get_query_ids` result. -/
def query_ids_of (queries : List QueryRecord) : List String :=
  (buildQueryMap queries).map Prod.fst

/-! ## The joining tasks -/

/-- Fallback record for the total lookup `lookupMeta` (never reached when the
key is present). -/
def defaultQueryRecord : QueryRecord := ⟨"", "", "", none, "", "", "", ""⟩

/-- Total variant of `dictGet`, used to state closed forms of the joins. -/
def lookupMeta (m : List (String × QueryRecord)) (k : String) : QueryRecord :=
  (dictGet m k).getD defaultQueryRecord

/-- The dict appended in the `post_cost_attribution` loop: `value` is the
row's credit, the seven correlation fields are copied from `query_meta`, and
`timestamp` is the row's `end_time` rendered by strftime. -/
def mkCostRecord (query_meta : QueryRecord) (credit : Int) (end_time : Int) :
    MetricRecord :=
  { value := credit
    assetId := query_meta.assetId
    deploymentId := query_meta.deploymentId
    workspaceId := query_meta.workspaceId
    runId := query_meta.runId
    dagId := query_meta.dagId
    taskId := query_meta.taskId
    nspace := query_meta.nspace
    timestamp := strftimeRFC3339 end_time }

/-- The dict built by `make_row(value)` in `post_query_rows_processed`:
`value if value is not None else 0`, correlation fields from `query_meta`,
timestamp from the row's `end_time`. -/
def mkUsageRecord (query_meta : QueryRecord) (value : Option Int)
    (end_time : Int) : MetricRecord :=
  { value := value.getD 0
    assetId := query_meta.assetId
    deploymentId := query_meta.deploymentId
    workspaceId := query_meta.workspaceId
    runId := query_meta.runId
    dagId := query_meta.dagId
    taskId := query_meta.taskId
    nspace := query_meta.nspace
    timestamp := strftimeRFC3339 end_time }

/-- The `costs` list built by the loop in `post_cost_attribution`.  A row whose
`query_id` is absent from the mapping makes `query_meta` `None` and the field
access `query_meta["assetId"]` raise `subscriptError`, aborting the loop. -/
def buildCosts (m : List (String × QueryRecord)) :
    List CostRow → Except PyExc (List MetricRecord)
  | [] => .ok []
  | r :: rest =>
    match dictGet m r.queryId with
    | none => .error subscriptError
    | some query_meta =>
      match buildCosts m rest with
      | .error e => .error e
      | .ok tail => .ok (mkCostRecord query_meta r.credit r.endTime :: tail)

/-- The seven lists accumulated by `post_query_rows_processed`. -/
structure UsageLists where
  produced : List MetricRecord
  inserted : List MetricRecord
  updated : List MetricRecord
  deleted : List MetricRecord
  unloaded : List MetricRecord
  elapsed : List MetricRecord
  scanned : List MetricRecord
deriving DecidableEq

/-- The loop of `post_query_rows_processed`: per row, one `make_row` append to
each of the seven lists; a missing `query_id` raises `subscriptError`. -/
def buildUsage (m : List (String × QueryRecord)) :
    List UsageRow → Except PyExc UsageLists
  | [] => .ok ⟨[], [], [], [], [], [], []⟩
  | r :: rest =>
    match dictGet m r.queryId with
    | none => .error subscriptError
    | some query_meta =>
      match buildUsage m rest with
      | .error e => .error e
      | .ok u =>
        .ok ⟨mkUsageRecord query_meta r.rows_produced r.endTime :: u.produced,
             mkUsageRecord query_meta r.rows_inserted r.endTime :: u.inserted,
             mkUsageRecord query_meta r.rows_updated r.endTime :: u.updated,
             mkUsageRecord query_meta r.rows_deleted r.endTime :: u.deleted,
             mkUsageRecord query_meta r.rows_unloaded r.endTime :: u.unloaded,
             mkUsageRecord query_meta r.total_elapsed_time r.endTime :: u.elapsed,
             mkUsageRecord query_meta r.bytes_scanned r.endTime :: u.scanned⟩

/-- Task `post_cost_attribution`: empty input returns without posting;
otherwise the cost batch is built and published once as
`post_metrics(token, "COST", "SNOWFLAKE_CREDITS", costs)`.  The result is the
list of publish calls issued (publish-side HTTP failures are modelled
separately in `post_metrics`). -/
def post_cost_attribution (query_costs : List CostRow)
    (query_run_mapping : List (String × QueryRecord)) :
    Except PyExc (List Batch) :=
  if query_costs.isEmpty then .ok []
  else
    match buildCosts query_run_mapping query_costs with
    | .error e => .error e
    | .ok costs => .ok [⟨"COST", "SNOWFLAKE_CREDITS", costs⟩]

/-- Task `post_query_rows_processed`: empty input returns without posting;
otherwise the seven lists are built and published by seven `post_metrics`
calls with category `CUSTOM`, in source order. -/
def post_query_rows_processed (rows_processed : List UsageRow)
    (query_run_mapping : List (String × QueryRecord)) :
    Except PyExc (List Batch) :=
  if rows_processed.isEmpty then .ok []
  else
    match buildUsage query_run_mapping rows_processed with
    | .error e => .error e
    | .ok u =>
      .ok [⟨"CUSTOM", "SNOWFLAKE_ROWS_PRODUCED", u.produced⟩,
           ⟨"CUSTOM", "SNOWFLAKE_ROWS_INSERTED", u.inserted⟩,
           ⟨"CUSTOM", "SNOWFLAKE_ROWS_UPDATED", u.updated⟩,
           ⟨"CUSTOM", "SNOWFLAKE_ROWS_DELETED", u.deleted⟩,
           ⟨"CUSTOM", "SNOWFLAKE_ROWS_UNLOADED", u.unloaded⟩,
           ⟨"CUSTOM", "SNOWFLAKE_TOTAL_ELAPSED_TIME", u.elapsed⟩,
           ⟨"CUSTOM", "SNOWFLAKE_BYTES_SCANNED", u.scanned⟩]

/-- The publish calls a joining task actually performs: in the source every
`post_metrics` call comes after the whole build loop, so a loop exception
means zero publishes. -/
def publishesOf : Except PyExc (List Batch) → List Batch
  | .ok bs => bs
  | .error _ => []

/-! ## Window calculator, fetch, gate, publishers -/

/-- The `(start, end)` strings computed at the top of `get_query_ids`:
`data_interval_start.subtract(hours=8).strftime("%Y-%m-%dT%H:%M:%S.%fZ")` and
likewise for the end. -/
def get_query_ids_window (data_interval_start data_interval_end : Int) :
    String × String :=
  (strftimeRFC3339 (data_interval_start - hoursToMicros 8),
   strftimeRFC3339 (data_interval_end - hoursToMicros 8))

/-- The lookback the source applies (a fixed 8 hours, per the
QUERY_ATTRIBUTION_HISTORY lag note). -/
def lag_hours : Int := 8

/-- The error path of the GET in `get_query_ids`: `resp.raise_for_status()`
raises for 4xx/5xx, and the handler re-raises
`Exception(f"Failed to get queries: {status_code}:{reason} {text}")`;
on success the body's `externalQueries` list is returned. -/
def get_query_ids_fetch (resp : HttpResponse)
    (externalQueries : List QueryRecord) : Except PyExc (List QueryRecord) :=
  if 400 ≤ resp.status_code ∧ resp.status_code < 600 then
    .error (.exc ("Failed to get queries: " ++ toString resp.status_code ++
      ":" ++ resp.reason ++ " " ++ resp.text))
  else .ok externalQueries

/-- `post_metrics` of the DAG file: raises
`Exception(f"Failed to post data: {resp.text}")` when the status is not
200. -/
def post_metrics (token category type : String) (data : List MetricRecord)
    (resp : HttpResponse) : Except PyExc Unit :=
  if resp.status_code ≠ 200 then
    .error (.exc ("Failed to post data: " ++ resp.text))
  else .ok ()

/-- `check_for_query_ids`: `bool(this)` on a list, i.e. nonemptiness. -/
def check_for_query_ids (query_ids : List String) : Bool :=
  !query_ids.isEmpty

/-- Observable effects of one DAG run (which SQL tasks ran, which batches were
published). -/
structure PipelineTrace where
  warehouse_queries : List String
  publishes : List Batch
deriving DecidableEq

/-- The DAG wiring of `cost_attribution()`: `check_for_query_ids` is a
short-circuit task upstream of both SQLExecuteQueryOperator tasks, which feed
the two posting tasks; when the gate returns false, Airflow skips every
downstream task, so neither warehouse lookup runs and nothing is published. -/
def cost_attribution_pipeline (externalQueries : List QueryRecord)
    (costRows : List CostRow) (usageRows : List UsageRow) : PipelineTrace :=
  let query_run_mapping := buildQueryMap externalQueries
  let query_ids := query_run_mapping.map Prod.fst
  if check_for_query_ids query_ids then
    { warehouse_queries := ["cost_attribution", "rows_processed_attribution"]
      publishes := publishesOf (post_cost_attribution costRows query_run_mapping) ++
        publishesOf (post_query_rows_processed usageRows query_run_mapping) }
  else { warehouse_queries := [], publishes := [] }

/-- Names bound at module level in `src/include/core/metrics.py`: the imports
are exactly `os`, `requests` and `task` (lines 1-3), plus the two functions
the module defines; `pprint` is neither imported there nor a Python
builtin. -/
def metricsModuleNames : List String :=
  ["os", "requests", "task", "get_external_queries", "post_metrics"]

/-- `post_metrics` of `src/include/core/metrics.py`, with the module's name
resolution made explicit: after the first `print`, the call `pprint(data,
indent=2)` looks up the name `pprint`; only if that resolves does the function
go on to issue `requests.post` and check the status.  The second component is
the list of HTTP POST requests issued (as batches). -/
def core_post_metrics (token category type : String) (data : List MetricRecord)
    (resp : HttpResponse) : Except PyExc Unit × List Batch :=
  if metricsModuleNames.contains "pprint" then
    if resp.status_code ≠ 200 then
      (.error (.exc ("Failed to post data: " ++ resp.text)),
       [⟨category, type, data⟩])
    else (.ok (), [⟨category, type, data⟩])
  else (.error (.nameError "pprint"), [])

/-- The correlation fields and timestamp of a metric record (everything except
`value`). -/
def corrOf (rec : MetricRecord) :
    String × String × Option String × String × String × String × String × String :=
  (rec.assetId, rec.deploymentId, rec.workspaceId, rec.runId, rec.dagId,
   rec.taskId, rec.nspace, rec.timestamp)

/-- Boolean list-prefix test on characters. -/
def startsWithChars : List Char → List Char → Bool
  | [], _ => true
  | _ :: _, [] => false
  | a :: as, b :: bs => a == b && startsWithChars as bs

/-- Boolean contiguous-sublist test on characters. -/
def hasSubChars (needle : List Char) : List Char → Bool
  | [] => needle.isEmpty
  | c :: rest => startsWithChars needle (c :: rest) || hasSubChars needle rest

/-- `needle` occurs verbatim inside `hay`. -/
def strContains (hay needle : String) : Bool :=
  hasSubChars needle.data hay.data

/-! Theorems. -/

/-- Sanity anchor for the formatter: the epoch. -/
theorem strftime_epoch : strftimeRFC3339 0 = "1970-01-01T00:00:00.000000Z" := by
  rfl

/-- Sanity anchor for the formatter: 2024-10-01 12:34:56.789012 UTC. -/
theorem strftime_2024 :
    strftimeRFC3339 1727786096789012 = "2024-10-01T12:34:56.789012Z" := by
  rfl

/-! ## Dict lemmas -/

/-- Lookup after a CPython dict assignment: the assigned key now maps to the
new value, every other key is untouched. -/
theorem dictGet_dictInsert (m : List (String × QueryRecord)) (k : String)
    (v : QueryRecord) (k' : String) :
    dictGet (dictInsert m k v) k' = if k = k' then some v else dictGet m k' := by
  induction m with
  | nil => by_cases h : k = k' <;> simp [dictInsert, dictGet, h]
  | cons p m ih =>
    by_cases hpk : p.1 = k
    · by_cases hkk : k = k'
      · simp [dictInsert, dictGet, hpk, hkk]
      · have hpk' : ¬p.1 = k' := by rw [hpk]; exact hkk
        simp [dictInsert, dictGet, hpk, hkk, hpk']
    · by_cases hpk' : p.1 = k'
      · have hkk : ¬k = k' := fun h => hpk (h ▸ hpk')
        simp [dictInsert, dictGet, hpk, hpk', hkk, Ne.symm hkk]
      · simp [dictInsert, dictGet, hpk, hpk', ih]

/-- `List.find?` over an append scans the left part first. -/
theorem find?_append_qr (p : QueryRecord → Bool) (l1 l2 : List QueryRecord) :
    (l1 ++ l2).find? p =
      match l1.find? p with
      | some x => some x
      | none => l2.find? p := by
  induction l1 with
  | nil => simp
  | cons a l ih =>
    by_cases h : p a <;> simp [List.find?_cons, h, ih]

/-- Lookup in the dict built by folding assignments over `qs` starting from
`m`: the last assignment to a key wins, keys never assigned fall through to
`m`. -/
theorem dictGet_foldl (qs : List QueryRecord)
    (m : List (String × QueryRecord)) (k : String) :
    dictGet (qs.foldl (fun acc q => dictInsert acc q.queryId q) m) k =
      match qs.reverse.find? (fun q => q.queryId == k) with
      | some q => some q
      | none => dictGet m k := by
  induction qs generalizing m with
  | nil => simp
  | cons q rest ih =>
    simp only [List.foldl_cons, List.reverse_cons]
    rw [ih, find?_append_qr]
    cases hfind : rest.reverse.find? (fun q => q.queryId == k) with
    | some r => simp
    | none =>
      rw [dictGet_dictInsert]
      by_cases h : q.queryId = k <;> simp [List.find?_cons, h]

/-- Key list after a dict assignment: unchanged when the key existed, the key
appended otherwise. -/
theorem keys_dictInsert (m : List (String × QueryRecord)) (k : String)
    (v : QueryRecord) :
    (dictInsert m k v).map Prod.fst =
      if k ∈ m.map Prod.fst then m.map Prod.fst
      else m.map Prod.fst ++ [k] := by
  induction m with
  | nil => simp [dictInsert]
  | cons p m ih =>
    by_cases hpk : p.1 = k
    · simp [dictInsert, hpk]
    · by_cases hm : k ∈ m.map Prod.fst <;>
        simp [dictInsert, hpk, ih, hm, Ne.symm hpk]

/-- Dict assignment preserves distinctness of the key list. -/
theorem nodup_keys_dictInsert (m : List (String × QueryRecord)) (k : String)
    (v : QueryRecord) (h : (m.map Prod.fst).Nodup) :
    ((dictInsert m k v).map Prod.fst).Nodup := by
  rw [keys_dictInsert]
  by_cases hm : k ∈ m.map Prod.fst
  · simpa [hm]
  · rw [if_neg hm]
    refine List.Nodup.append h (List.nodup_singleton k) ?_
    intro a ha hb
    rw [List.mem_singleton] at hb
    exact hm (hb ▸ ha)

/-- Folding dict assignments preserves distinctness of the key list. -/
theorem nodup_keys_foldl (qs : List QueryRecord)
    (m : List (String × QueryRecord)) (h : (m.map Prod.fst).Nodup) :
    (((qs.foldl (fun acc q => dictInsert acc q.queryId q) m)).map Prod.fst).Nodup := by
  induction qs generalizing m with
  | nil => exact h
  | cons q rest ih => exact ih _ (nodup_keys_dictInsert _ _ _ h)

/-! ## Closed forms of the two joining loops -/

/-- When every cost row's `query_id` is in the mapping, the `costs` loop
succeeds and produces, in input order, one `mkCostRecord` per row. -/
theorem buildCosts_eq_map (m : List (String × QueryRecord))
    (rows : List CostRow)
    (hall : ∀ r ∈ rows, (dictGet m r.queryId).isSome) :
    buildCosts m rows = .ok (rows.map fun r =>
      mkCostRecord (lookupMeta m r.queryId) r.credit r.endTime) := by
  induction rows with
  | nil => rfl
  | cons r rest ih =>
    obtain ⟨meta, hmeta⟩ :=
      Option.isSome_iff_exists.mp (hall r (List.mem_cons_self r rest))
    have h2 : ∀ x ∈ rest, (dictGet m x.queryId).isSome := fun x hx =>
      hall x (List.mem_cons_of_mem _ hx)
    simp [buildCosts, hmeta, ih h2, lookupMeta]

/-- A cost row with an unmapped `query_id` makes the loop raise the
`NoneType` subscript `TypeError`. -/
theorem buildCosts_error (m : List (String × QueryRecord))
    (rows : List CostRow)
    (h : ∃ r ∈ rows, dictGet m r.queryId = none) :
    buildCosts m rows = .error subscriptError := by
  induction rows with
  | nil =>
    obtain ⟨r, hr, _⟩ := h
    exact absurd hr (List.not_mem_nil r)
  | cons r rest ih =>
    cases hget : dictGet m r.queryId with
    | none => simp [buildCosts, hget]
    | some meta =>
      obtain ⟨x, hx, hxn⟩ := h
      rcases List.mem_cons.mp hx with h1 | h1
      · rw [h1] at hxn; rw [hget] at hxn; cases hxn
      · simp [buildCosts, hget, ih ⟨x, h1, hxn⟩]

/-- When every usage row's `query_id` is in the mapping, the usage loop
succeeds and each of the seven lists is, in input order, one
`mkUsageRecord` per row for the corresponding field. -/
theorem buildUsage_eq_map (m : List (String × QueryRecord))
    (rows : List UsageRow)
    (hall : ∀ r ∈ rows, (dictGet m r.queryId).isSome) :
    buildUsage m rows = .ok
      ⟨rows.map (fun r => mkUsageRecord (lookupMeta m r.queryId) r.rows_produced r.endTime),
       rows.map (fun r => mkUsageRecord (lookupMeta m r.queryId) r.rows_inserted r.endTime),
       rows.map (fun r => mkUsageRecord (lookupMeta m r.queryId) r.rows_updated r.endTime),
       rows.map (fun r => mkUsageRecord (lookupMeta m r.queryId) r.rows_deleted r.endTime),
       rows.map (fun r => mkUsageRecord (lookupMeta m r.queryId) r.rows_unloaded r.endTime),
       rows.map (fun r => mkUsageRecord (lookupMeta m r.queryId) r.total_elapsed_time r.endTime),
       rows.map (fun r => mkUsageRecord (lookupMeta m r.queryId) r.bytes_scanned r.endTime)⟩ := by
  induction rows with
  | nil => rfl
  | cons r rest ih =>
    obtain ⟨meta, hmeta⟩ :=
      Option.isSome_iff_exists.mp (hall r (List.mem_cons_self r rest))
    have h2 : ∀ x ∈ rest, (dictGet m x.queryId).isSome := fun x hx =>
      hall x (List.mem_cons_of_mem _ hx)
    simp [buildUsage, hmeta, ih h2, lookupMeta]

/-- A usage row with an unmapped `query_id` makes the loop raise the
`NoneType` subscript `TypeError`. -/
theorem buildUsage_error (m : List (String × QueryRecord))
    (rows : List UsageRow)
    (h : ∃ r ∈ rows, dictGet m r.queryId = none) :
    buildUsage m rows = .error subscriptError := by
  induction rows with
  | nil =>
    obtain ⟨r, hr, _⟩ := h
    exact absurd hr (List.not_mem_nil r)
  | cons r rest ih =>
    cases hget : dictGet m r.queryId with
    | none => simp [buildUsage, hget]
    | some meta =>
      obtain ⟨x, hx, hxn⟩ := h
      rcases List.mem_cons.mp hx with h1 | h1
      · rw [h1] at hxn; rw [hget] at hxn; cases hxn
      · simp [buildUsage, hget, ih ⟨x, h1, hxn⟩]

/-! ## Substring lemmas -/

/-- A list is a prefix of itself followed by anything. -/
theorem startsWithChars_append (n rest : List Char) :
    startsWithChars n (n ++ rest) = true := by
  induction n with
  | nil => rfl
  | cons a as ih => simp [startsWithChars, ih]

/-- A list occurs inside any list of the shape `pre ++ (n ++ suf)`. -/
theorem hasSubChars_middle (n pre suf : List Char) :
    hasSubChars n (pre ++ (n ++ suf)) = true := by
  induction pre with
  | nil =>
    cases n with
    | nil => cases suf <;> simp [hasSubChars, startsWithChars]
    | cons c cs =>
      have h := startsWithChars_append (c :: cs) suf
      simp only [List.cons_append] at h
      simp [hasSubChars, h]
  | cons p ps ih => simp [hasSubChars, ih]

/-- A string of the shape `pre ++ mid ++ suf` contains `mid` verbatim. -/
theorem strContains_decomp (msg pre mid suf : String)
    (h : msg.data = pre.data ++ (mid.data ++ suf.data)) :
    strContains msg mid = true := by
  unfold strContains
  rw [h]
  exact hasSubChars_middle _ _ _

/-! ## Claim theorems -/

/-- C1: for every cost row whose `queryId` is in `query_id_map`,
`post_cost_attribution` emits exactly one MetricRecord — `value` is the row's
credit, `timestamp` is `endTime` under strftime `%Y-%m-%dT%H:%M:%S.%fZ`, and
the seven correlation fields are copied from the mapped QueryRecord — and all
records go into one batch published with category `COST`, type
`SNOWFLAKE_CREDITS`. -/
theorem c1_cost_batch (query_costs : List CostRow)
    (query_run_mapping : List (String × QueryRecord))
    (hne : query_costs ≠ [])
    (hall : ∀ r ∈ query_costs, (dictGet query_run_mapping r.queryId).isSome) :
    post_cost_attribution query_costs query_run_mapping =
      .ok [⟨"COST", "SNOWFLAKE_CREDITS", query_costs.map fun r =>
        mkCostRecord (lookupMeta query_run_mapping r.queryId) r.credit r.endTime⟩] ∧
    ∀ r ∈ query_costs, ∀ meta,
      dictGet query_run_mapping r.queryId = some meta →
      mkCostRecord (lookupMeta query_run_mapping r.queryId) r.credit r.endTime =
        { value := r.credit
          assetId := meta.assetId
          deploymentId := meta.deploymentId
          workspaceId := meta.workspaceId
          runId := meta.runId
          dagId := meta.dagId
          taskId := meta.taskId
          nspace := meta.nspace
          timestamp := strftimeRFC3339 r.endTime } := by
  have hie : query_costs.isEmpty = false := by
    cases query_costs with
    | nil => exact absurd rfl hne
    | cons a l => rfl
  constructor
  · simp [post_cost_attribution, hie,
      buildCosts_eq_map query_run_mapping query_costs hall]
  · intro r hr meta hmeta
    simp [lookupMeta, hmeta, mkCostRecord]

/-- Witness for C1 at a concrete row and mapping. -/
theorem c1_cost_batch_witness :
    post_cost_attribution [⟨"q1", 0, 7⟩]
      [("q1", ⟨"q1", "a1", "d1", some "w1", "r1", "dag1", "t1", "ns1"⟩)] =
      .ok [⟨"COST", "SNOWFLAKE_CREDITS",
        [⟨7, "a1", "d1", some "w1", "r1", "dag1", "t1", "ns1",
          strftimeRFC3339 0⟩]⟩] := by
  have h := c1_cost_batch [⟨"q1", 0, 7⟩]
    [("q1", ⟨"q1", "a1", "d1", some "w1", "r1", "dag1", "t1", "ns1"⟩)]
    (by simp) (by decide)
  rw [h.1]
  rfl

/-- C2: for every usage row whose `queryId` is in the mapping,
`post_query_rows_processed` emits one MetricRecord per tracked numeric field
whose `value` is that field's value with NULL replaced by `0`, all seven
records of a row sharing the correlation fields and the strftime-rendered
`end_time`. -/
theorem c2_usage_values (rows_processed : List UsageRow)
    (query_run_mapping : List (String × QueryRecord))
    (hne : rows_processed ≠ [])
    (hall : ∀ r ∈ rows_processed, (dictGet query_run_mapping r.queryId).isSome) :
    post_query_rows_processed rows_processed query_run_mapping =
      .ok [⟨"CUSTOM", "SNOWFLAKE_ROWS_PRODUCED", rows_processed.map fun r =>
              mkUsageRecord (lookupMeta query_run_mapping r.queryId) r.rows_produced r.endTime⟩,
           ⟨"CUSTOM", "SNOWFLAKE_ROWS_INSERTED", rows_processed.map fun r =>
              mkUsageRecord (lookupMeta query_run_mapping r.queryId) r.rows_inserted r.endTime⟩,
           ⟨"CUSTOM", "SNOWFLAKE_ROWS_UPDATED", rows_processed.map fun r =>
              mkUsageRecord (lookupMeta query_run_mapping r.queryId) r.rows_updated r.endTime⟩,
           ⟨"CUSTOM", "SNOWFLAKE_ROWS_DELETED", rows_processed.map fun r =>
              mkUsageRecord (lookupMeta query_run_mapping r.queryId) r.rows_deleted r.endTime⟩,
           ⟨"CUSTOM", "SNOWFLAKE_ROWS_UNLOADED", rows_processed.map fun r =>
              mkUsageRecord (lookupMeta query_run_mapping r.queryId) r.rows_unloaded r.endTime⟩,
           ⟨"CUSTOM", "SNOWFLAKE_TOTAL_ELAPSED_TIME", rows_processed.map fun r =>
              mkUsageRecord (lookupMeta query_run_mapping r.queryId) r.total_elapsed_time r.endTime⟩,
           ⟨"CUSTOM", "SNOWFLAKE_BYTES_SCANNED", rows_processed.map fun r =>
              mkUsageRecord (lookupMeta query_run_mapping r.queryId) r.bytes_scanned r.endTime⟩] ∧
    (∀ meta t, (mkUsageRecord meta none t).value = 0) ∧
    (∀ meta v t, (mkUsageRecord meta (some v) t).value = v) ∧
    (∀ meta v t, (mkUsageRecord meta v t).timestamp = strftimeRFC3339 t) ∧
    (∀ meta v w t, corrOf (mkUsageRecord meta v t) = corrOf (mkUsageRecord meta w t)) := by
  have hie : rows_processed.isEmpty = false := by
    cases rows_processed with
    | nil => exact absurd rfl hne
    | cons a l => rfl
  refine ⟨?_, fun meta t => rfl, fun meta v t => rfl, fun meta v t => rfl,
    fun meta v w t => rfl⟩
  simp [post_query_rows_processed, hie,
    buildUsage_eq_map query_run_mapping rows_processed hall]

/-- Witness for C2 at a concrete row (with a NULL field) and mapping. -/
theorem c2_usage_values_witness :
    post_query_rows_processed
      [⟨"q1", none, some 2, some 3, some 4, some 5, some 6, some 7, 0⟩]
      [("q1", ⟨"q1", "a1", "d1", none, "r1", "dag1", "t1", "ns1"⟩)] =
      .ok [⟨"CUSTOM", "SNOWFLAKE_ROWS_PRODUCED",
              [⟨0, "a1", "d1", none, "r1", "dag1", "t1", "ns1", strftimeRFC3339 0⟩]⟩,
           ⟨"CUSTOM", "SNOWFLAKE_ROWS_INSERTED",
              [⟨2, "a1", "d1", none, "r1", "dag1", "t1", "ns1", strftimeRFC3339 0⟩]⟩,
           ⟨"CUSTOM", "SNOWFLAKE_ROWS_UPDATED",
              [⟨3, "a1", "d1", none, "r1", "dag1", "t1", "ns1", strftimeRFC3339 0⟩]⟩,
           ⟨"CUSTOM", "SNOWFLAKE_ROWS_DELETED",
              [⟨4, "a1", "d1", none, "r1", "dag1", "t1", "ns1", strftimeRFC3339 0⟩]⟩,
           ⟨"CUSTOM", "SNOWFLAKE_ROWS_UNLOADED",
              [⟨5, "a1", "d1", none, "r1", "dag1", "t1", "ns1", strftimeRFC3339 0⟩]⟩,
           ⟨"CUSTOM", "SNOWFLAKE_TOTAL_ELAPSED_TIME",
              [⟨6, "a1", "d1", none, "r1", "dag1", "t1", "ns1", strftimeRFC3339 0⟩]⟩,
           ⟨"CUSTOM", "SNOWFLAKE_BYTES_SCANNED",
              [⟨7, "a1", "d1", none, "r1", "dag1", "t1", "ns1", strftimeRFC3339 0⟩]⟩] := by
  have h := c2_usage_values
    [⟨"q1", none, some 2, some 3, some 4, some 5, some 6, some 7, 0⟩]
    [("q1", ⟨"q1", "a1", "d1", none, "r1", "dag1", "t1", "ns1"⟩)]
    (by simp) (by decide)
  rw [h.1]
  rfl

/-- C3: every processed usage row yields exactly 7 MetricRecords, one per
tracked field, across 7 distinct batches, each published once with category
`CUSTOM` under the 7 SNOWFLAKE_* type names, in source order. -/
theorem c3_seven_batches (rows_processed : List UsageRow)
    (query_run_mapping : List (String × QueryRecord))
    (hne : rows_processed ≠ [])
    (hall : ∀ r ∈ rows_processed, (dictGet query_run_mapping r.queryId).isSome) :
    ∃ bs, post_query_rows_processed rows_processed query_run_mapping = .ok bs ∧
      publishesOf (post_query_rows_processed rows_processed query_run_mapping) = bs ∧
      bs.length = 7 ∧
      bs.map Batch.category = List.replicate 7 "CUSTOM" ∧
      bs.map Batch.type =
        ["SNOWFLAKE_ROWS_PRODUCED", "SNOWFLAKE_ROWS_INSERTED",
         "SNOWFLAKE_ROWS_UPDATED", "SNOWFLAKE_ROWS_DELETED",
         "SNOWFLAKE_ROWS_UNLOADED", "SNOWFLAKE_TOTAL_ELAPSED_TIME",
         "SNOWFLAKE_BYTES_SCANNED"] ∧
      (bs.map Batch.type).Nodup ∧
      ∀ b ∈ bs, b.metrics.length = rows_processed.length := by
  have hres := (c2_usage_values rows_processed query_run_mapping hne hall).1
  refine ⟨_, hres, by rw [hres]; rfl, rfl, rfl, rfl, ?_, ?_⟩
  · show (["SNOWFLAKE_ROWS_PRODUCED", "SNOWFLAKE_ROWS_INSERTED",
      "SNOWFLAKE_ROWS_UPDATED", "SNOWFLAKE_ROWS_DELETED",
      "SNOWFLAKE_ROWS_UNLOADED", "SNOWFLAKE_TOTAL_ELAPSED_TIME",
      "SNOWFLAKE_BYTES_SCANNED"] : List String).Nodup
    decide
  intro b hb
  simp only [List.mem_cons, List.not_mem_nil, or_false] at hb
  rcases hb with rfl | rfl | rfl | rfl | rfl | rfl | rfl <;>
    simp

/-- Witness for C3 at a concrete row and mapping. -/
theorem c3_seven_batches_witness :
    ∃ bs, post_query_rows_processed
        [⟨"q1", none, some 2, some 3, some 4, some 5, some 6, some 7, 0⟩]
        [("q1", ⟨"q1", "a1", "d1", none, "r1", "dag1", "t1", "ns1"⟩)] = .ok bs ∧
      publishesOf (post_query_rows_processed
        [⟨"q1", none, some 2, some 3, some 4, some 5, some 6, some 7, 0⟩]
        [("q1", ⟨"q1", "a1", "d1", none, "r1", "dag1", "t1", "ns1"⟩)]) = bs ∧
      bs.length = 7 ∧
      bs.map Batch.category = List.replicate 7 "CUSTOM" ∧
      bs.map Batch.type =
        ["SNOWFLAKE_ROWS_PRODUCED", "SNOWFLAKE_ROWS_INSERTED",
         "SNOWFLAKE_ROWS_UPDATED", "SNOWFLAKE_ROWS_DELETED",
         "SNOWFLAKE_ROWS_UNLOADED", "SNOWFLAKE_TOTAL_ELAPSED_TIME",
         "SNOWFLAKE_BYTES_SCANNED"] ∧
      (bs.map Batch.type).Nodup ∧
      ∀ b ∈ bs, b.metrics.length =
        [(⟨"q1", none, some 2, some 3, some 4, some 5, some 6, some 7, 0⟩ : UsageRow)].length :=
  c3_seven_batches
    [⟨"q1", none, some 2, some 3, some 4, some 5, some 6, some 7, 0⟩]
    [("q1", ⟨"q1", "a1", "d1", none, "r1", "dag1", "t1", "ns1"⟩)]
    (by simp) (by decide)

/-- C9: on a fully-mapped input the 7 batches all have length `n` and, at each
index `i`, the records of all 7 batches carry the same correlation fields and
timestamp, taken from the `i`-th input row: the batches are equal-length and
order-preserving. -/
theorem c9_batches_aligned (rows_processed : List UsageRow)
    (query_run_mapping : List (String × QueryRecord))
    (hne : rows_processed ≠ [])
    (hall : ∀ r ∈ rows_processed, (dictGet query_run_mapping r.queryId).isSome) :
    ∃ bs, post_query_rows_processed rows_processed query_run_mapping = .ok bs ∧
      (∀ b ∈ bs, b.metrics.length = rows_processed.length) ∧
      ∀ b ∈ bs, ∀ i : Nat,
        (b.metrics[i]?).map corrOf = (rows_processed[i]?).map fun r =>
          ((lookupMeta query_run_mapping r.queryId).assetId,
           (lookupMeta query_run_mapping r.queryId).deploymentId,
           (lookupMeta query_run_mapping r.queryId).workspaceId,
           (lookupMeta query_run_mapping r.queryId).runId,
           (lookupMeta query_run_mapping r.queryId).dagId,
           (lookupMeta query_run_mapping r.queryId).taskId,
           (lookupMeta query_run_mapping r.queryId).nspace,
           strftimeRFC3339 r.endTime) := by
  have hres := (c2_usage_values rows_processed query_run_mapping hne hall).1
  refine ⟨_, hres, ?_, ?_⟩
  · intro b hb
    simp only [List.mem_cons, List.not_mem_nil, or_false] at hb
    rcases hb with rfl | rfl | rfl | rfl | rfl | rfl | rfl <;> simp
  · intro b hb i
    simp only [List.mem_cons, List.not_mem_nil, or_false] at hb
    rcases hb with rfl | rfl | rfl | rfl | rfl | rfl | rfl <;>
      · simp only [List.getElem?_map, Option.map_map]
        cases rows_processed[i]? <;> rfl

/-- Witness for C9 at a concrete two-row input. -/
theorem c9_batches_aligned_witness :
    ∃ bs, post_query_rows_processed
        [⟨"q1", none, some 2, some 3, some 4, some 5, some 6, some 7, 0⟩,
         ⟨"q2", some 9, none, none, none, none, none, none, 1000000⟩]
        [("q1", ⟨"q1", "a1", "d1", none, "r1", "dag1", "t1", "ns1"⟩),
         ("q2", ⟨"q2", "a2", "d2", some "w2", "r2", "dag2", "t2", "ns2"⟩)] = .ok bs ∧
      (∀ b ∈ bs, b.metrics.length =
        [(⟨"q1", none, some 2, some 3, some 4, some 5, some 6, some 7, 0⟩ : UsageRow),
         ⟨"q2", some 9, none, none, none, none, none, none, 1000000⟩].length) ∧
      ∀ b ∈ bs, ∀ i : Nat,
        (b.metrics[i]?).map corrOf =
          (([(⟨"q1", none, some 2, some 3, some 4, some 5, some 6, some 7, 0⟩ : UsageRow),
             ⟨"q2", some 9, none, none, none, none, none, none, 1000000⟩])[i]?).map fun r =>
            ((lookupMeta [("q1", ⟨"q1", "a1", "d1", none, "r1", "dag1", "t1", "ns1"⟩),
               ("q2", ⟨"q2", "a2", "d2", some "w2", "r2", "dag2", "t2", "ns2"⟩)] r.queryId).assetId,
             (lookupMeta [("q1", ⟨"q1", "a1", "d1", none, "r1", "dag1", "t1", "ns1"⟩),
               ("q2", ⟨"q2", "a2", "d2", some "w2", "r2", "dag2", "t2", "ns2"⟩)] r.queryId).deploymentId,
             (lookupMeta [("q1", ⟨"q1", "a1", "d1", none, "r1", "dag1", "t1", "ns1"⟩),
               ("q2", ⟨"q2", "a2", "d2", some "w2", "r2", "dag2", "t2", "ns2"⟩)] r.queryId).workspaceId,
             (lookupMeta [("q1", ⟨"q1", "a1", "d1", none, "r1", "dag1", "t1", "ns1"⟩),
               ("q2", ⟨"q2", "a2", "d2", some "w2", "r2", "dag2", "t2", "ns2"⟩)] r.queryId).runId,
             (lookupMeta [("q1", ⟨"q1", "a1", "d1", none, "r1", "dag1", "t1", "ns1"⟩),
               ("q2", ⟨"q2", "a2", "d2", some "w2", "r2", "dag2", "t2", "ns2"⟩)] r.queryId).dagId,
             (lookupMeta [("q1", ⟨"q1", "a1", "d1", none, "r1", "dag1", "t1", "ns1"⟩),
               ("q2", ⟨"q2", "a2", "d2", some "w2", "r2", "dag2", "t2", "ns2"⟩)] r.queryId).taskId,
             (lookupMeta [("q1", ⟨"q1", "a1", "d1", none, "r1", "dag1", "t1", "ns1"⟩),
               ("q2", ⟨"q2", "a2", "d2", some "w2", "r2", "dag2", "t2", "ns2"⟩)] r.queryId).nspace,
             strftimeRFC3339 r.endTime) :=
  c9_batches_aligned
    [⟨"q1", none, some 2, some 3, some 4, some 5, some 6, some 7, 0⟩,
     ⟨"q2", some 9, none, none, none, none, none, none, 1000000⟩]
    [("q1", ⟨"q1", "a1", "d1", none, "r1", "dag1", "t1", "ns1"⟩),
     ("q2", ⟨"q2", "a2", "d2", some "w2", "r2", "dag2", "t2", "ns2"⟩)]
    (by simp) (by decide)

/-- C4: the window `get_query_ids` computes is
`(intervalStart - lag, intervalEnd - lag)` for the fixed lag of 8 hours (which
lies in the 6-to-8-hour band), each endpoint rendered by the strftime
formatter with microsecond precision on the UTC instant, and the shifted end
stays strictly after the shifted start whenever the interval is
nondegenerate. -/
theorem c4_window (data_interval_start data_interval_end : Int)
    (h : data_interval_start < data_interval_end) :
    get_query_ids_window data_interval_start data_interval_end =
      (strftimeRFC3339 (data_interval_start - hoursToMicros lag_hours),
       strftimeRFC3339 (data_interval_end - hoursToMicros lag_hours)) ∧
    hoursToMicros 6 ≤ hoursToMicros lag_hours ∧
    hoursToMicros lag_hours ≤ hoursToMicros 8 ∧
    data_interval_start - hoursToMicros lag_hours <
      data_interval_end - hoursToMicros lag_hours := by
  refine ⟨rfl, by norm_num [hoursToMicros, usPerSecond, lag_hours],
    le_refl _, sub_lt_sub_right h _⟩

/-- Witness for C4 at a concrete interval. -/
theorem c4_window_witness :
    get_query_ids_window 0 1 =
      (strftimeRFC3339 (0 - hoursToMicros lag_hours),
       strftimeRFC3339 (1 - hoursToMicros lag_hours)) ∧
    hoursToMicros 6 ≤ hoursToMicros lag_hours ∧
    hoursToMicros lag_hours ≤ hoursToMicros 8 ∧
    (0 : Int) - hoursToMicros lag_hours < 1 - hoursToMicros lag_hours :=
  c4_window 0 1 (by decide)

/-- C5: `check_for_query_ids` is true exactly on nonempty id lists, and a run
in which the gate is false (in particular a fetch returning zero query
identifiers) executes no warehouse lookup and no publish call. -/
theorem c5_gate (query_ids : List String) (externalQueries : List QueryRecord)
    (costRows : List CostRow) (usageRows : List UsageRow)
    (hfalse : check_for_query_ids
      ((buildQueryMap externalQueries).map Prod.fst) = false) :
    (check_for_query_ids query_ids = true ↔ query_ids ≠ []) ∧
    cost_attribution_pipeline externalQueries costRows usageRows = ⟨[], []⟩ := by
  constructor
  · cases query_ids <;> simp [check_for_query_ids]
  · simp only [cost_attribution_pipeline, hfalse, Bool.false_eq_true, if_false]

/-- Witness for C5: a fetch returning zero query identifiers. -/
theorem c5_gate_witness :
    (check_for_query_ids ["q"] = true ↔ (["q"] : List String) ≠ []) ∧
    cost_attribution_pipeline [] [⟨"q", 0, 1⟩]
      [⟨"q", none, none, none, none, none, none, none, 0⟩] = ⟨[], []⟩ :=
  c5_gate ["q"] [] [⟨"q", 0, 1⟩]
    [⟨"q", none, none, none, none, none, none, none, 0⟩] (by decide)

/-- C7: a cost or usage row whose `queryId` is absent from the mapping makes
the joining task raise the `NoneType` subscript `TypeError` inside the build
loop, i.e. before any publish call of that task is made, and no metric record
reaches a published batch. -/
theorem c7_missing_correlation (query_run_mapping : List (String × QueryRecord))
    (costRows : List CostRow) (usageRows : List UsageRow)
    (hc : ∃ r ∈ costRows, dictGet query_run_mapping r.queryId = none)
    (hu : ∃ r ∈ usageRows, dictGet query_run_mapping r.queryId = none) :
    post_cost_attribution costRows query_run_mapping = .error subscriptError ∧
    publishesOf (post_cost_attribution costRows query_run_mapping) = [] ∧
    post_query_rows_processed usageRows query_run_mapping = .error subscriptError ∧
    publishesOf (post_query_rows_processed usageRows query_run_mapping) = [] := by
  obtain ⟨rc, hrc, hrcn⟩ := hc
  obtain ⟨ru, hru, hrun⟩ := hu
  have hcne : costRows.isEmpty = false := by
    cases costRows with
    | nil => exact absurd hrc (List.not_mem_nil rc)
    | cons a l => rfl
  have hune : usageRows.isEmpty = false := by
    cases usageRows with
    | nil => exact absurd hru (List.not_mem_nil ru)
    | cons a l => rfl
  have h1 : post_cost_attribution costRows query_run_mapping = .error subscriptError := by
    simp [post_cost_attribution, hcne,
      buildCosts_error query_run_mapping costRows ⟨rc, hrc, hrcn⟩]
  have h2 : post_query_rows_processed usageRows query_run_mapping = .error subscriptError := by
    simp [post_query_rows_processed, hune,
      buildUsage_error query_run_mapping usageRows ⟨ru, hru, hrun⟩]
  exact ⟨h1, by rw [h1]; rfl, h2, by rw [h2]; rfl⟩

/-- Witness for C7: an empty mapping and one unmatched row of each kind. -/
theorem c7_missing_correlation_witness :
    post_cost_attribution [⟨"q", 0, 1⟩] [] = .error subscriptError ∧
    publishesOf (post_cost_attribution [⟨"q", 0, 1⟩] []) = [] ∧
    post_query_rows_processed
      [⟨"q", none, none, none, none, none, none, none, 0⟩] [] = .error subscriptError ∧
    publishesOf (post_query_rows_processed
      [⟨"q", none, none, none, none, none, none, none, 0⟩] []) = [] :=
  c7_missing_correlation [] [⟨"q", 0, 1⟩]
    [⟨"q", none, none, none, none, none, none, none, 0⟩]
    ⟨⟨"q", 0, 1⟩, List.mem_singleton_self _, rfl⟩
    ⟨⟨"q", none, none, none, none, none, none, none, 0⟩,
      List.mem_singleton_self _, rfl⟩

/-- C8: the mapping built by `get_query_ids` resolves a duplicated `queryId`
to the last record carrying it in fetch order, its key list is duplicate-free,
and the returned `query_ids` list is exactly that key list. -/
theorem c8_last_write_wins (queries : List QueryRecord) :
    (∀ k, dictGet (buildQueryMap queries) k =
      queries.reverse.find? (fun q => q.queryId == k)) ∧
    (query_ids_of queries).Nodup ∧
    query_ids_of queries = (buildQueryMap queries).map Prod.fst := by
  refine ⟨fun k => ?_, ?_, rfl⟩
  · rw [buildQueryMap, dictGet_foldl]
    cases h : queries.reverse.find? (fun q => q.queryId == k) <;> simp [dictGet]
  · exact nodup_keys_foldl queries [] (by simp)

/-- C10: every invocation of `post_metrics` in `src/include/core/metrics.py`
raises `NameError` on the unimported name `pprint` and issues no HTTP request,
whatever its arguments and whatever the would-be response. -/
theorem c10_core_name_error (token category type : String)
    (data : List MetricRecord) (resp : HttpResponse) :
    core_post_metrics token category type data resp =
      (.error (.nameError "pprint"), []) := by
  rfl

/-- C6 fails as stated: at a concrete 500 response the metrics POST of the DAG
raises `Exception("Failed to post data: oops")`, whose text does not contain
the status code `500`. -/
theorem c6_counterexample :
    post_metrics "tok" "COST" "SNOWFLAKE_CREDITS" []
      ⟨500, "Internal Server Error", "oops"⟩ =
      .error (.exc "Failed to post data: oops") ∧
    strContains "Failed to post data: oops" (toString (500 : Nat)) = false := by
  exact ⟨rfl, by decide⟩

/-- C6 amended: on a non-success response the query-identifier GET raises an
error whose text contains both the status code and the body verbatim, while
the metrics POST raises an error whose text contains the body verbatim (but
not, in general, the status code). -/
theorem c6_amended (resp : HttpResponse) (externalQueries : List QueryRecord)
    (token category type : String) (data : List MetricRecord)
    (h4 : 400 ≤ resp.status_code) (h6 : resp.status_code < 600)
    (hp : resp.status_code ≠ 200) :
    (∃ msg, get_query_ids_fetch resp externalQueries = .error (.exc msg) ∧
      strContains msg (toString resp.status_code) = true ∧
      strContains msg resp.text = true) ∧
    (∃ msg, post_metrics token category type data resp = .error (.exc msg) ∧
      strContains msg resp.text = true) := by
  constructor
  · refine ⟨"Failed to get queries: " ++ toString resp.status_code ++ ":" ++
      resp.reason ++ " " ++ resp.text, ?_, ?_, ?_⟩
    · unfold get_query_ids_fetch
      rw [if_pos ⟨h4, h6⟩]
    · apply strContains_decomp _ "Failed to get queries: " _
        (":" ++ resp.reason ++ " " ++ resp.text)
      simp [List.append_assoc]
    · apply strContains_decomp _ ("Failed to get queries: " ++
        toString resp.status_code ++ ":" ++ resp.reason ++ " ") _ ""
      simp [List.append_assoc]
  · refine ⟨"Failed to post data: " ++ resp.text, ?_, ?_⟩
    · unfold post_metrics
      rw [if_pos hp]
    · apply strContains_decomp _ "Failed to post data: " _ ""
      simp

/-- Witness for the amended C6 at a concrete 500 response. -/
theorem c6_amended_witness :
    (∃ msg, get_query_ids_fetch ⟨500, "Internal Server Error", "oops"⟩ [] =
        .error (.exc msg) ∧
      strContains msg (toString (500 : Nat)) = true ∧
      strContains msg "oops" = true) ∧
    (∃ msg, post_metrics "tok" "COST" "SNOWFLAKE_CREDITS" []
        ⟨500, "Internal Server Error", "oops"⟩ = .error (.exc msg) ∧
      strContains msg "oops" = true) :=
  c6_amended ⟨500, "Internal Server Error", "oops"⟩ [] "tok" "COST"
    "SNOWFLAKE_CREDITS" [] (by decide) (by decide) (by decide)
